import Mathlib

/-!
Shallow embedding of the retrying HTTP request core (`src/api-client/ApiClient.ts`,
`src/api-client/types.ts`) and of the transformation pipeline (`Pipeline.ts`),
together with proofs of the specified properties.

JavaScript values thrown by collaborators are modelled by the `Thrown` type,
JS objects used as header maps are modelled as insertion-ordered key/value
lists with JS spread/assignment semantics, and asynchronous functions are
modelled as pure functions returning `Except` (a rejected promise is an
`Except.error`).
-/

namespace ApiModel

/-- Minimal model of a JavaScript `Error` object: its `name` and `message`. -/
structure JsError where
  name : String
  message : String
deriving DecidableEq, Repr

/-- Minimal model of a JavaScript runtime value, sufficient to model request
bodies and parsed response bodies. `Option JsValue` with `none` models
`undefined`. -/
inductive JsValue where
  | nullV : JsValue
  | boolean (b : Bool) : JsValue
  | number (q : ℚ) : JsValue
  | str (s : String) : JsValue
  | object : JsValue
deriving DecidableEq, Repr

/-- JavaScript truthiness of a `JsValue`. -/
def JsValue.truthy : JsValue → Bool
  | JsValue.nullV => false
  | JsValue.boolean b => b
  | JsValue.number q => decide (q ≠ 0)
  | JsValue.str s => decide (s ≠ ("" : String))
  | JsValue.object => true

/-- Truthiness of an optional value (`none` models `undefined`, which is falsy). -/
def truthyOpt : Option JsValue → Bool
  | none => false
  | some v => v.truthy

/-- Falsiness of an optional string (JS: `undefined` and the empty string are falsy). -/
def optStrFalsy (o : Option String) : Bool :=
  o.getD ("") = ("" : String)

/-- Parsed response data as produced by `parseResponse`: `undefined`, decoded
JSON, or raw text. -/
inductive ResponseData where
  | undef : ResponseData
  | json (v : JsValue) : ResponseData
  | text (s : String) : ResponseData
deriving DecidableEq, Repr

/-- A value thrown (promise rejection) inside the client. The first three
constructors model instances of the `ApiError` subclasses from `types.ts`
(`NetworkError`, `TimeoutError`, `HttpError`); `jsError` models any other
`Error` instance; `nonError` models a thrown non-`Error` value by its string
form. -/
inductive Thrown where
  | network (message : String) (originalError : Option JsError) : Thrown
  | timeout (message : String) (timeoutMs : Nat) : Thrown
  | http (message : String) (statusCode : Nat) (responseBody : Option ResponseData) : Thrown
  | jsError (e : JsError) : Thrown
  | nonError (stringForm : String) : Thrown
deriving DecidableEq, Repr

/-- `HttpError.isServerError` from `types.ts`: status in `[500, 600)`. -/
def isServerError (statusCode : Nat) : Bool :=
  decide (500 ≤ statusCode) && decide (statusCode < 600)

/-- `HttpError.isClientError` from `types.ts`: status in `[400, 500)`. -/
def isClientError (statusCode : Nat) : Bool :=
  decide (400 ≤ statusCode) && decide (statusCode < 500)

/-- The `name` property of a thrown value when it is an `Error` instance
(`ApiError` sets `this.name = this.constructor.name`). -/
def errorName : Thrown → Option String
  | Thrown.network _ _ => some ("NetworkError")
  | Thrown.timeout _ _ => some ("TimeoutError")
  | Thrown.http _ _ _ => some ("HttpError")
  | Thrown.jsError e => some e.name
  | Thrown.nonError _ => none

/-- The `message` property of a thrown value when it is an `Error` instance. -/
def errorMessage : Thrown → Option String
  | Thrown.network m _ => some m
  | Thrown.timeout m _ => some m
  | Thrown.http m _ _ => some m
  | Thrown.jsError e => some e.message
  | Thrown.nonError _ => none

/-- View of a thrown value as a `JsError` when it is an `Error` instance
(used for `error instanceof Error ? error : undefined`). -/
def asJsError : Thrown → Option JsError
  | Thrown.network m _ => some ⟨("NetworkError"), m⟩
  | Thrown.timeout m _ => some ⟨("TimeoutError"), m⟩
  | Thrown.http m _ _ => some ⟨("HttpError"), m⟩
  | Thrown.jsError e => some e
  | Thrown.nonError _ => none

/-- Header maps are JS objects: insertion-ordered lists of key/value pairs.
Well-formed objects never hold two entries with the same key; the operations
below implement the JS object semantics (lookup, property assignment, and
object spread) and agree with it on all well-formed maps. Lookup returns the
last binding so that it is also stable on non-normalized lists. -/
abbrev Headers := List (String × String)

/-- Property lookup `h[k]` (`none` models `undefined`). -/
def getHeader (h : Headers) (k : String) : Option String :=
  h.foldl (fun acc p => if p.1 = k then some p.2 else acc) none

/-- Property assignment `h[k] = v`: overwrite in place when the key exists,
append otherwise (JS objects keep the original insertion position on
re-assignment). -/
def setHeader (h : Headers) (k v : String) : Headers :=
  if h.any (fun p => p.1 = k) then
    h.map (fun p => if p.1 = k then (k, v) else p)
  else h ++ [(k, v)]

/-- Object spread `{...a, ...b}`: assign every binding of `b` into `a` in order. -/
def spread (a b : Headers) : Headers :=
  b.foldl (fun acc p => setHeader acc p.1 p.2) a

/-- HTTP method of a request (`RequestConfig.method` in `types.ts`). -/
inductive Method where
  | GET | POST | PUT | DELETE | PATCH
deriving DecidableEq, Repr

/-- `RequestConfig` from `types.ts`: configuration of one request. `none` on an
optional field models leaving it `undefined`. -/
structure RequestConfig where
  method : Method
  url : String
  headers : Headers := []
  body : Option JsValue := none
  timeout : Option Nat := none
deriving Repr

/-- Model of the raw `Response` the transport hands back: the status line, the
`Content-Type` header, and the two body readers (`json()`, which may reject
with a parse error, and `text()`). -/
structure Response where
  status : Nat
  statusText : String
  contentType : Option String
  jsonBody : Except JsError JsValue
  textBody : String

/-- The `Response.ok` getter: status in the 2xx range. -/
def Response.isOk (r : Response) : Bool :=
  decide (200 ≤ r.status) && decide (r.status ≤ 299)

/-- A request interceptor (may reject, modelled by `Except.error`). -/
abbrev RequestInterceptor := RequestConfig → Except Thrown RequestConfig

/-- A response interceptor (may reject, modelled by `Except.error`). -/
abbrev ResponseInterceptor := Response → Except Thrown Response

/-- `RetryConfig` from `types.ts`. -/
structure RetryConfig where
  maxRetries : Nat
  initialDelay : ℚ
  maxDelay : ℚ
  backoffMultiplier : ℚ
deriving Repr

/-- `ApiClientConfig` from `types.ts` (construction-time options). -/
structure ApiClientConfig where
  baseURL : String
  timeout : Option Nat := none
  headers : Option Headers := none
  retryConfig : Option RetryConfig := none
  authToken : Option String := none

/-- The state of an `ApiClient` instance: the resolved `Required
ApiClientConfig` plus the two interceptor lists. -/
structure ClientState where
  baseURL : String
  timeout : Nat
  headers : Headers
  retryConfig : RetryConfig
  authToken : String
  requestInterceptors : List RequestInterceptor
  responseInterceptors : List ResponseInterceptor

/-- The `ApiClient` constructor: fill in defaults for absent options
(timeout 30000 ms; empty headers; 3 retries, 1000 ms initial delay, 10000 ms
max delay, multiplier 2; empty auth token). Interceptor lists start empty. -/
def mkClient (config : ApiClientConfig) : ClientState where
  baseURL := config.baseURL
  timeout := config.timeout.getD 30000
  headers := config.headers.getD []
  retryConfig := config.retryConfig.getD ⟨3, 1000, 10000, 2⟩
  authToken := config.authToken.getD ("")
  requestInterceptors := []
  responseInterceptors := []

/-- `setAuthToken`: replace the credential token. -/
def setAuthToken (c : ClientState) (token : String) : ClientState :=
  { c with authToken := token }

/-- `getAuthToken`: read the credential token back. -/
def getAuthToken (c : ClientState) : String :=
  c.authToken

/-- `addRequestInterceptor`: append to the ordered interceptor list. -/
def addRequestInterceptor (c : ClientState) (i : RequestInterceptor) : ClientState :=
  { c with requestInterceptors := c.requestInterceptors ++ [i] }

/-- `addResponseInterceptor`: append to the ordered interceptor list. -/
def addResponseInterceptor (c : ClientState) (i : ResponseInterceptor) : ClientState :=
  { c with responseInterceptors := c.responseInterceptors ++ [i] }

/-- `injectAuthToken`: when a token is configured (JS truthiness: the empty
string is falsy and skips injection), copy the config and assign an
`Authorization: Bearer` header over any existing one. -/
def injectAuthToken (c : ClientState) (requestConfig : RequestConfig) : RequestConfig :=
  if c.authToken = ("" : String) then requestConfig
  else
    { requestConfig with
        headers := spread requestConfig.headers [(("Authorization"), ("Bearer ") ++ c.authToken)] }

/-- The `for ... of this.requestInterceptors` loop: run each interceptor in
registration order on the output of the previous one; a rejection aborts the
loop and propagates. -/
def runRequestInterceptors : List RequestInterceptor → RequestConfig → Except Thrown RequestConfig
  | [], cfg => Except.ok cfg
  | i :: rest, cfg =>
      match i cfg with
      | Except.ok cfg2 => runRequestInterceptors rest cfg2
      | Except.error e => Except.error e

/-- The `for ... of this.responseInterceptors` loop. -/
def runResponseInterceptors : List ResponseInterceptor → Response → Except Thrown Response
  | [], r => Except.ok r
  | i :: rest, r =>
      match i r with
      | Except.ok r2 => runResponseInterceptors rest r2
      | Except.error e => Except.error e

/-- JS `String.prototype.includes`. -/
def strIncludes (s pat : String) : Bool :=
  if pat = ("" : String) then true else decide (2 ≤ (s.splitOn pat).length)

/-- `safeParseResponseBody`: best-effort body parse for error responses; a JSON
parse failure yields `undefined` (`none`) instead of rejecting. -/
def safeParseResponseBody (r : Response) : Option ResponseData :=
  match r.contentType with
  | some ct =>
      if strIncludes ct ("application/json") then
        match r.jsonBody with
        | Except.ok v => some (ResponseData.json v)
        | Except.error _ => none
      else some (ResponseData.text r.textBody)
  | none => some (ResponseData.text r.textBody)

/-- `parseResponse`: `undefined` for 204/absent (or empty) content type, decoded
JSON for JSON content types (a parse failure rejects with the parse error),
raw text otherwise. -/
def parseResponse (r : Response) : Except Thrown ResponseData :=
  if r.status = 204 ∨ optStrFalsy r.contentType then Except.ok ResponseData.undef
  else if strIncludes (r.contentType.getD ("")) ("application/json") then
    match r.jsonBody with
    | Except.ok v => Except.ok (ResponseData.json v)
    | Except.error e => Except.error (Thrown.jsError e)
  else Except.ok (ResponseData.text r.textBody)

/-- The `catch` clause of `fetchWithTimeout`: an `Error` named `AbortError`
becomes a `TimeoutError` carrying the effective timeout; an `HttpError` is
re-thrown unchanged; anything else is wrapped in a `NetworkError`. -/
def catchClause (timeout : Nat) (t : Thrown) : Thrown :=
  if errorName t = some ("AbortError") then
    Thrown.timeout (("Request timeout after ") ++ toString timeout ++ ("ms")) timeout
  else
    match t with
    | Thrown.http m s b => Thrown.http m s b
    | _ =>
        Thrown.network (("Network request failed: ") ++ ((errorMessage t).getD ("Unknown error")))
          (asJsError t)

/-- The behaviour of the underlying `fetch` collaborator on one invocation:
either it resolves with a `Response` or it rejects with a thrown value (an
abort triggered by the timeout rejects with an `Error` named `AbortError`). -/
abbrev TransportBehaviour := Except Thrown Response

/-- The headers actually sent: default headers spread together with the
(post-interceptor) request headers — request entries win on key collision —
plus a `Content-Type: application/json` assignment when the body is truthy and
no (or an empty) `Content-Type` entry is present in the merged headers. -/
def sentHeaders (c : ClientState) (mc : RequestConfig) : Headers :=
  let mergedHeaders := spread c.headers mc.headers
  if truthyOpt mc.body && optStrFalsy (getHeader mergedHeaders ("Content-Type")) then
    setHeader mergedHeaders ("Content-Type") ("application/json")
  else mergedHeaders

/-- The request as handed to the transport by `fetchWithTimeout`: method, the
assembled headers, the body (only a truthy body is serialized and sent), and
the effective timeout. -/
structure SentRequest where
  method : Method
  headers : Headers
  body : Option JsValue
  timeout : Nat

/-- The pre-network phase of `fetchWithTimeout`: token injection, then the
request interceptors in order, then assembly of the request handed to the
transport. A rejection from an interceptor propagates unwrapped (it happens
before the `try` block). -/
def resolveSentRequest (c : ClientState) (requestConfig : RequestConfig) :
    Except Thrown SentRequest :=
  match runRequestInterceptors c.requestInterceptors (injectAuthToken c requestConfig) with
  | Except.error e => Except.error e
  | Except.ok mc =>
      Except.ok
        { method := mc.method
          headers := sentHeaders c mc
          body := if truthyOpt mc.body then mc.body else none
          timeout := mc.timeout.getD c.timeout }

/-- `fetchWithTimeout`: one attempt. Token injection and the request
interceptors run first (outside the `try` block, so their rejections propagate
unwrapped); then the transport is consulted; then the response interceptors run
in order; a non-2xx status raises an `HttpError` with a best-effort parsed
body; every rejection inside the `try` block goes through `catchClause`. -/
def fetchWithTimeout (c : ClientState) (requestConfig : RequestConfig)
    (transport : TransportBehaviour) : Except Thrown Response :=
  match runRequestInterceptors c.requestInterceptors (injectAuthToken c requestConfig) with
  | Except.error e => Except.error e
  | Except.ok mc =>
      let timeout := mc.timeout.getD c.timeout
      let tryResult : Except Thrown Response :=
        match transport with
        | Except.error t => Except.error t
        | Except.ok resp =>
            match runResponseInterceptors c.responseInterceptors resp with
            | Except.error t => Except.error t
            | Except.ok r2 =>
                if r2.isOk then Except.ok r2
                else
                  Except.error
                    (Thrown.http (("HTTP ") ++ toString r2.status ++ (": ") ++ r2.statusText)
                      r2.status (safeParseResponseBody r2))
      match tryResult with
      | Except.ok r => Except.ok r
      | Except.error t => Except.error (catchClause timeout t)

/-- `isRetryableError`: network errors always; HTTP errors only for a 5xx
status; everything else (timeouts, 4xx, foreign errors) never. -/
def isRetryableError : Thrown → Bool
  | Thrown.network _ _ => true
  | Thrown.http _ s _ => isServerError s
  | _ => false

/-- `calculateBackoffDelay`: exponential backoff capped at `maxDelay`, then
full jitter — the delay is `rand * cappedDelay` for the `Math.random()` draw
`rand`, not `cappedDelay` plus jitter. Numbers are modelled as rationals. -/
def calculateBackoffDelay (attempt : Nat) (initialDelay maxDelay backoffMultiplier : ℚ)
    (rand : ℚ) : ℚ :=
  let exponentialDelay := initialDelay * backoffMultiplier ^ attempt
  let cappedDelay := min exponentialDelay maxDelay
  let jitter := rand * cappedDelay
  jitter

/-- The retry loop of `retryWithBackoff`, with `remaining = maxRetries -
attempt` (the loop guard `attempt <= maxRetries` makes the two formulations
coincide, and `remaining = 0` is the `attempt === maxRetries` exhaustion
test). The second component counts how many times `requestFn` was invoked;
the backoff sleep has no observable effect on the result. -/
def retryFrom {α : Type} (requestFn : Nat → Except Thrown α) :
    Nat → Nat → Except Thrown α × Nat
  | attempt, remaining =>
      match requestFn attempt with
      | Except.ok v => (Except.ok v, attempt + 1)
      | Except.error e =>
          if isRetryableError e then
            match remaining with
            | 0 => (Except.error e, attempt + 1)
            | r + 1 => retryFrom requestFn (attempt + 1) r
          else (Except.error e, attempt + 1)

/-- `retryWithBackoff`: up to `maxRetries + 1` total attempts starting at
attempt index 0. Returns the final outcome and the number of invocations of
`requestFn`. -/
def retryWithBackoff {α : Type} (requestFn : Nat → Except Thrown α) (maxRetries : Nat) :
    Except Thrown α × Nat :=
  retryFrom requestFn 0 maxRetries

/-- `transformError`: a typed `ApiError` passes through; any other `Error` (and
any non-`Error` value) is wrapped in a `NetworkError`. -/
def transformError : Thrown → Thrown
  | Thrown.network m o => Thrown.network m o
  | Thrown.timeout m t => Thrown.timeout m t
  | Thrown.http m s b => Thrown.http m s b
  | Thrown.jsError e => Thrown.network e.message (some e)
  | Thrown.nonError _ => Thrown.network ("Unknown error occurred") none

/-- `ApiResponse` from `types.ts`: the tagged Response Envelope. -/
inductive ApiResponse (T : Type) where
  | success (data : T) : ApiResponse T
  | error (e : Thrown) : ApiResponse T
  | loading : ApiResponse T

/-- `request`: the top-level execution path. The retried attempt and the body
parse run inside a `try` whose `catch` produces the `error` envelope via
`transformError`; a success produces the `success` envelope. The transport
behaviour is indexed by the attempt number. -/
def request (c : ClientState) (requestConfig : RequestConfig)
    (transport : Nat → TransportBehaviour) : ApiResponse ResponseData :=
  match (retryWithBackoff (fun i => fetchWithTimeout c requestConfig (transport i))
        c.retryConfig.maxRetries).1.bind parseResponse with
  | Except.error e => ApiResponse.error (transformError e)
  | Except.ok d => ApiResponse.success d

/-- `get`: sugar over `request` with method GET. -/
def get (c : ClientState) (url : String) (transport : Nat → TransportBehaviour) :
    ApiResponse ResponseData :=
  request c { method := Method.GET, url := url } transport

/-- `post`: sugar over `request` with method POST and a body. -/
def post (c : ClientState) (url : String) (body : Option JsValue)
    (transport : Nat → TransportBehaviour) : ApiResponse ResponseData :=
  request c { method := Method.POST, url := url, body := body } transport

/-- `put`: sugar over `request` with method PUT and a body. -/
def put (c : ClientState) (url : String) (body : Option JsValue)
    (transport : Nat → TransportBehaviour) : ApiResponse ResponseData :=
  request c { method := Method.PUT, url := url, body := body } transport

/-- `delete`: sugar over `request` with method DELETE. -/
def delete (c : ClientState) (url : String) (transport : Nat → TransportBehaviour) :
    ApiResponse ResponseData :=
  request c { method := Method.DELETE, url := url } transport

/-! The transformation pipeline (`Pipeline.ts`). Records travel through the
steps as untyped `any` values; one type parameter `V` models that value
universe. A thrown step value is either an `Error` instance or any other
value, remembered by its string form. -/

/-- A value thrown by a transformation step. -/
inductive StepThrown where
  | isErrorInstance (e : JsError) : StepThrown
  | notError (stringForm : String) : StepThrown
deriving DecidableEq, Repr

/-- `error instanceof Error ? error : new Error(String(error))`. -/
def coerceError : StepThrown → JsError
  | StepThrown.isErrorInstance e => e
  | StepThrown.notError s => ⟨("Error"), s⟩

/-- A `TransformFn` value: a JS function carries a `name` property (empty for
anonymous functions) alongside its behaviour; it may reject. -/
structure TransformFn (V : Type) where
  fnName : String
  fn : V → Except StepThrown V

/-- Internal `TransformStep` record: the function plus the resolved step name. -/
structure TransformStep (V : Type) where
  fn : TransformFn V
  name : String

/-- A `Pipeline` instance: its ordered list of steps. -/
structure Pipeline (V : Type) where
  steps : List (TransformStep V)

/-- JS `a || b` on strings (the empty string is falsy). -/
def jsOr (a b : String) : String :=
  if a = ("" : String) then b else a

/-- `Pipeline.transform`: resolve the step name (`name || fn.name ||
step-N`), build a fresh array holding the old steps plus the new one, and
return a new `Pipeline` over it; the receiver is not written to. -/
def Pipeline.transform {V : Type} (p : Pipeline V) (f : TransformFn V) (name : Option String) :
    Pipeline V :=
  let stepName := jsOr (name.getD ("")) (jsOr f.fnName (("step-") ++ toString (p.steps.length + 1)))
  ⟨p.steps ++ [⟨f, stepName⟩]⟩

/-- `FailedRecord` from the pipeline types: the original input record, the
(coerced) error, and the failing step name. -/
structure FailedRecord (V : Type) where
  originalData : V
  error : JsError
  step : String
deriving DecidableEq, Repr

/-- `PipelineResult` from the pipeline types. -/
structure PipelineResult (V : Type) where
  successful : List V
  failed : List (FailedRecord V)
  successCount : Nat
  failureCount : Nat
  totalCount : Nat

/-- The inner step loop of `Pipeline.execute` for one record: apply each step
in declared order to the working value; a rejection stops this record and
reports the failing step name together with the thrown value. -/
def runSteps {V : Type} : List (TransformStep V) → V → Except (String × StepThrown) V
  | [], current => Except.ok current
  | s :: rest, current =>
      match s.fn.fn current with
      | Except.ok next => runSteps rest next
      | Except.error e => Except.error (s.name, e)

/-- `failedStepName || 'unknown'` from the per-record catch. -/
def reportedStep (n : String) : String :=
  jsOr n ("unknown")

/-- The record loop of `Pipeline.execute`: sequentially process each record,
appending to the successful list on success and to the failed list (original
record, coerced error, failing step name) on failure. -/
def executeLists {V : Type} (steps : List (TransformStep V)) :
    List V → List V × List (FailedRecord V)
  | [] => ([], [])
  | record :: rest =>
      let tail := executeLists steps rest
      match runSteps steps record with
      | Except.ok v => (v :: tail.1, tail.2)
      | Except.error ne => (tail.1, ⟨record, coerceError ne.2, reportedStep ne.1⟩ :: tail.2)

/-- `Pipeline.execute`: run the record loop and package the result with the
three counts. -/
def Pipeline.execute {V : Type} (p : Pipeline V) (data : List V) : PipelineResult V :=
  let lists := executeLists p.steps data
  { successful := lists.1
    failed := lists.2
    successCount := lists.1.length
    failureCount := lists.2.length
    totalCount := data.length }

/-! Lemmas about the header-object operations. -/

theorem getHeader_nil (k : String) : getHeader [] k = none := rfl

theorem getHeader_foldl (h : Headers) (k : String) (i : Option String) :
    h.foldl (fun acc p => if p.1 = k then some p.2 else acc) i = (getHeader h k).or i := by
  induction h generalizing i with
  | nil => simp [getHeader]
  | cons p t ih =>
      simp only [getHeader, List.foldl_cons] at *
      rw [ih, ih (if p.1 = k then some p.2 else none)]
      by_cases hp : p.1 = k
      · simp [hp, Option.or_assoc]
      · simp [hp]

theorem getHeader_cons (p : String × String) (t : Headers) (k : String) :
    getHeader (p :: t) k = (getHeader t k).or (if p.1 = k then some p.2 else none) := by
  simp only [getHeader, List.foldl_cons]
  exact getHeader_foldl t k _

theorem getHeader_append (a b : Headers) (k : String) :
    getHeader (a ++ b) k = (getHeader b k).or (getHeader a k) := by
  simp only [getHeader, List.foldl_append]
  exact getHeader_foldl b k _

theorem getHeader_eq_none_of_not_any (h : Headers) (k : String)
    (hna : h.any (fun p => p.1 = k) = false) : getHeader h k = none := by
  induction h with
  | nil => rfl
  | cons p t ih =>
      simp only [List.any_cons, Bool.or_eq_false_iff] at hna
      rw [getHeader_cons, ih hna.2]
      simp only [decide_eq_false_iff_not] at hna
      simp [hna.1]

theorem getHeader_map_assign (h : Headers) (k v k2 : String) :
    getHeader (h.map (fun p => if p.1 = k then (k, v) else p)) k2
      = if k = k2 then (getHeader h k).map (fun _ => v) else getHeader h k2 := by
  induction h with
  | nil => by_cases hk : k = k2 <;> simp [getHeader, hk]
  | cons p t ih =>
      simp only [List.map_cons, getHeader_cons, ih]
      by_cases hk : k = k2
      · subst hk
        by_cases hp : p.1 = k
        · simp only [hp, if_pos rfl]
          cases getHeader t k <;> simp
        · simp only [hp, if_neg hp, if_pos rfl, if_neg hp]
          cases getHeader t k <;> simp [hp]
      · by_cases hp : p.1 = k
        · have : k ≠ k2 := hk
          simp [hp, hk, this]
        · simp [hp, hk]

theorem getHeader_isSome_of_any (h : Headers) (k : String)
    (ha : h.any (fun p => p.1 = k) = true) : (getHeader h k).isSome = true := by
  induction h with
  | nil => simp at ha
  | cons p t ih =>
      rw [getHeader_cons]
      simp only [List.any_cons, Bool.or_eq_true] at ha
      rcases ha with hp | ht
      · simp only [decide_eq_true_eq] at hp
        cases hgt : getHeader t k <;> simp [hp]
      · have hsome := ih ht
        cases hgt : getHeader t k
        · rw [hgt] at hsome
          simp at hsome
        · simp

theorem getHeader_setHeader (h : Headers) (k v k2 : String) :
    getHeader (setHeader h k v) k2 = if k = k2 then some v else getHeader h k2 := by
  unfold setHeader
  by_cases ha : h.any (fun p => p.1 = k) = true
  · rw [if_pos ha, getHeader_map_assign]
    by_cases hk : k = k2
    · subst hk
      rcases hs : getHeader h k with _ | w
      · have hsome := getHeader_isSome_of_any h k ha
        rw [hs] at hsome
        simp at hsome
      · simp [hs]
    · simp [hk]
  · rw [if_neg ha, getHeader_append]
    by_cases hk : k = k2
    · subst hk
      have h1 : getHeader [(k, v)] k = some v := by simp [getHeader]
      rw [h1]
      simp
    · have h1 : getHeader [(k, v)] k2 = none := by simp [getHeader, hk]
      rw [h1]
      simp [hk]

theorem getHeader_spread (a b : Headers) (k : String) :
    getHeader (spread a b) k = (getHeader b k).or (getHeader a k) := by
  induction b generalizing a with
  | nil => simp [spread, getHeader]
  | cons p t ih =>
      simp only [spread, List.foldl_cons] at *
      rw [ih, getHeader_cons, getHeader_setHeader]
      by_cases hp : p.1 = k
      · simp [hp, Option.or_assoc]
      · simp [hp]

/-! Helper lemmas about the pipeline record loop. -/

theorem executeLists_eq {V : Type} (steps : List (TransformStep V)) (data : List V) :
    executeLists steps data =
      (data.filterMap (fun r =>
          match runSteps steps r with
          | Except.ok v => some v
          | Except.error _ => none),
        data.filterMap (fun r =>
          match runSteps steps r with
          | Except.ok _ => none
          | Except.error ne => some ⟨r, coerceError ne.2, reportedStep ne.1⟩)) := by
  induction data with
  | nil => rfl
  | cons r rest ih =>
      simp only [executeLists, ih, List.filterMap_cons]
      cases h : runSteps steps r <;> simp [h]

theorem executeLists_length {V : Type} (steps : List (TransformStep V)) (data : List V) :
    (executeLists steps data).1.length + (executeLists steps data).2.length = data.length := by
  induction data with
  | nil => rfl
  | cons r rest ih =>
      simp only [executeLists]
      cases h : runSteps steps r <;> simp only [List.length_cons] <;> omega

/-- C4: `Pipeline.execute` processes each record independently through the
steps in declared order: the successful list collects, in input order, the
fully transformed values of the records whose step run succeeds, and the
failed list collects, in input order, one entry per failing record carrying
the original unmodified input record, the coerced error, and the failing step
name. In particular, for input `[r1, r2, r3]` where only `r2` fails at step
`validate`, `successful = [f r1, f r3]` and `failed` is the single entry for
`r2` at step `validate`. -/
theorem pipeline_execute_spec {V : Type} (p : Pipeline V) (data : List V)
    (r1 r2 r3 v1 v3 : V) (e : StepThrown) :
    (p.execute data).successful
        = data.filterMap (fun r =>
            match runSteps p.steps r with
            | Except.ok v => some v
            | Except.error _ => none)
    ∧ (p.execute data).failed
        = data.filterMap (fun r =>
            match runSteps p.steps r with
            | Except.ok _ => none
            | Except.error ne => some ⟨r, coerceError ne.2, reportedStep ne.1⟩)
    ∧ (runSteps p.steps r1 = Except.ok v1 →
        runSteps p.steps r2 = Except.error (("validate"), e) →
        runSteps p.steps r3 = Except.ok v3 →
        (p.execute [r1, r2, r3]).successful = [v1, v3]
          ∧ (p.execute [r1, r2, r3]).failed = [⟨r2, coerceError e, ("validate")⟩]) := by
  refine ⟨?_, ?_, fun h1 h2 h3 => ?_⟩
  · simp [Pipeline.execute, executeLists_eq]
  · simp [Pipeline.execute, executeLists_eq]
  · simp only [Pipeline.execute, executeLists, h1, h2, h3]
    exact ⟨trivial, rfl⟩

/-- C4 witness: a concrete one-step pipeline over natural-number records whose
`validate` step rejects exactly the record `2`. -/
theorem pipeline_execute_spec_witness :
    ((Pipeline.mk
          [⟨⟨("validateFn"),
              fun n => if n = 2 then Except.error (StepThrown.notError ("bad")) else Except.ok (n + 10)⟩,
            ("validate")⟩] :
        Pipeline Nat).execute [1, 2, 3]).successful = [11, 13]
    ∧ ((Pipeline.mk
          [⟨⟨("validateFn"),
              fun n => if n = 2 then Except.error (StepThrown.notError ("bad")) else Except.ok (n + 10)⟩,
            ("validate")⟩] :
        Pipeline Nat).execute [1, 2, 3]).failed
        = [⟨2, coerceError (StepThrown.notError ("bad")), ("validate")⟩] :=
  (pipeline_execute_spec
      (Pipeline.mk
        [⟨⟨("validateFn"),
            fun n => if n = 2 then Except.error (StepThrown.notError ("bad")) else Except.ok (n + 10)⟩,
          ("validate")⟩])
      [1, 2, 3] 1 2 3 11 13 (StepThrown.notError ("bad"))).2.2 rfl rfl rfl

/-- C5: for every pipeline and every input sequence, the Pipeline Result
satisfies `successCount + failureCount = totalCount`, the counts being the
lengths of the successful list, the failed list, and the input. -/
theorem pipeline_counts_invariant {V : Type} (p : Pipeline V) (data : List V) :
    (p.execute data).successCount + (p.execute data).failureCount = (p.execute data).totalCount := by
  simp only [Pipeline.execute]
  exact executeLists_length p.steps data

/-- C6: `Pipeline.transform` returns a new pipeline value whose step list is
the old list with the resolved step appended (so its step count grows by
one); the receiver can be extended again independently from the same step
list, and the behaviour of `execute` is determined solely by the step list, so
the original pipeline behaves identically before and after the extension. -/
theorem pipeline_transform_immutable {V : Type} (p : Pipeline V) (f g : TransformFn V)
    (name name2 : Option String) (data : List V) :
    (p.transform f name).steps
        = p.steps
            ++ [⟨f, jsOr (name.getD ("")) (jsOr f.fnName (("step-") ++ toString (p.steps.length + 1)))⟩]
    ∧ (p.transform f name).steps.length = p.steps.length + 1
    ∧ (p.transform g name2).steps
        = p.steps
            ++ [⟨g, jsOr (name2.getD ("")) (jsOr g.fnName (("step-") ++ toString (p.steps.length + 1)))⟩]
    ∧ ∀ q : Pipeline V, q.steps = p.steps → q.execute data = p.execute data := by
  refine ⟨rfl, by simp [Pipeline.transform], rfl, fun q hq => ?_⟩
  cases p
  cases q
  cases hq
  rfl

/-- C6 witness: extending a concrete one-step pipeline leaves a pipeline with
the same step list behaving identically on a concrete input. -/
theorem pipeline_transform_immutable_witness :
    ((Pipeline.mk [⟨⟨("incr"), fun n => Except.ok (n + 1)⟩, ("incr")⟩] : Pipeline Nat).transform
          ⟨("dbl"), fun n => Except.ok (n * 2)⟩ none).steps.length
        = 2
    ∧ (Pipeline.mk [⟨⟨("incr"), fun n => Except.ok (n + 1)⟩, ("incr")⟩] : Pipeline Nat).execute [5]
        = (Pipeline.mk [⟨⟨("incr"), fun n => Except.ok (n + 1)⟩, ("incr")⟩] : Pipeline Nat).execute
            [5] :=
  ⟨(pipeline_transform_immutable
        (Pipeline.mk [⟨⟨("incr"), fun n => Except.ok (n + 1)⟩, ("incr")⟩])
        ⟨("dbl"), fun n => Except.ok (n * 2)⟩ ⟨("dbl"), fun n => Except.ok (n * 2)⟩ none none
        [5]).2.1,
    (pipeline_transform_immutable
        (Pipeline.mk [⟨⟨("incr"), fun n => Except.ok (n + 1)⟩, ("incr")⟩])
        ⟨("dbl"), fun n => Except.ok (n * 2)⟩ ⟨("dbl"), fun n => Except.ok (n * 2)⟩ none none
        [5]).2.2.2
      (Pipeline.mk [⟨⟨("incr"), fun n => Except.ok (n + 1)⟩, ("incr")⟩]) rfl⟩

/-! Helper lemmas about the request path. -/

theorem request_shape (c : ClientState) (rc : RequestConfig) (t : Nat → TransportBehaviour) :
    (∃ d, request c rc t = ApiResponse.success d)
      ∨ (∃ e, request c rc t = ApiResponse.error e) := by
  unfold request
  cases hr : (retryWithBackoff (fun i => fetchWithTimeout c rc (t i))
      c.retryConfig.maxRetries).1.bind parseResponse with
  | error e => exact Or.inr ⟨_, rfl⟩
  | ok d => exact Or.inl ⟨_, rfl⟩

theorem request_ne_loading (c : ClientState) (rc : RequestConfig) (t : Nat → TransportBehaviour) :
    request c rc t ≠ ApiResponse.loading := by
  rcases request_shape c rc t with ⟨d, hd⟩ | ⟨e, he⟩
  · rw [hd]; intro h; exact ApiResponse.noConfusion h
  · rw [he]; intro h; exact ApiResponse.noConfusion h

/-- C1: for every request descriptor and every behaviour of the transport
collaborator and the interceptors (success, non-2xx status, thrown network
failure, abort, interceptor rejection, body-parse failure), the top-level
`request` operation — and hence `get`, `post`, `put` and `delete` — produces
an envelope tagged `success` or `error`; it never produces the `loading`
variant, and (being a total function into the envelope type) never raises. -/
theorem request_envelope_totality (c : ClientState) (requestConfig : RequestConfig)
    (transport : Nat → TransportBehaviour) (url : String) (body : Option JsValue) :
    ((∃ d, request c requestConfig transport = ApiResponse.success d)
        ∨ (∃ e, request c requestConfig transport = ApiResponse.error e))
    ∧ request c requestConfig transport ≠ ApiResponse.loading
    ∧ get c url transport ≠ ApiResponse.loading
    ∧ post c url body transport ≠ ApiResponse.loading
    ∧ put c url body transport ≠ ApiResponse.loading
    ∧ delete c url transport ≠ ApiResponse.loading :=
  ⟨request_shape c requestConfig transport,
    request_ne_loading c requestConfig transport,
    request_ne_loading c _ transport,
    request_ne_loading c _ transport,
    request_ne_loading c _ transport,
    request_ne_loading c _ transport⟩

/-- C1 witness: a concrete client against a constantly failing transport still
yields a settled envelope, never the `loading` variant. -/
theorem request_envelope_totality_witness :
    request (mkClient { baseURL := ("http://a") }) { method := Method.GET, url := ("/x") }
        (fun _ => Except.error (Thrown.network ("down") none))
      ≠ ApiResponse.loading :=
  (request_envelope_totality (mkClient { baseURL := ("http://a") })
      { method := Method.GET, url := ("/x") }
      (fun _ => Except.error (Thrown.network ("down") none)) ("/x") none).2.1

/-! Helper lemmas about the retry loop. -/

theorem retryFrom_all_retryable_fail {α : Type} (fn : Nat → Except Thrown α) (errs : Nat → Thrown)
    (hfn : ∀ i, fn i = Except.error (errs i)) (hret : ∀ i, isRetryableError (errs i) = true) :
    ∀ remaining attempt,
      retryFrom fn attempt remaining
        = (Except.error (errs (attempt + remaining)), attempt + remaining + 1) := by
  intro remaining
  induction remaining with
  | zero =>
      intro attempt
      rw [retryFrom]
      simp [hfn, hret]
  | succ r ih =>
      intro attempt
      rw [retryFrom]
      simp only [hfn, hret, if_true]
      rw [ih (attempt + 1)]
      have h1 : attempt + 1 + r = attempt + (r + 1) := by omega
      rw [h1]

theorem retryFrom_not_retryable {α : Type} (fn : Nat → Except Thrown α) (e : Thrown)
    (attempt remaining : Nat) (hfn : fn attempt = Except.error e)
    (hret : isRetryableError e = false) :
    retryFrom fn attempt remaining = (Except.error e, attempt + 1) := by
  rw [retryFrom]
  simp [hfn, hret]

/-- C2: with `maxRetries = N` and a single-attempt function failing on every
invocation with a retryable error, `retryWithBackoff` invokes it exactly
`N + 1` times and propagates the last error; consequently a client whose
attempts all fail with retryable errors reports the `error` envelope built
from the last error. -/
theorem retry_exhaustion (N : Nat) (errs : Nat → Thrown)
    (hret : ∀ i, isRetryableError (errs i) = true) :
    (∀ fn : Nat → Except Thrown Response,
        (∀ i, fn i = Except.error (errs i)) →
        retryWithBackoff fn N = (Except.error (errs N), N + 1))
    ∧ ∀ (c : ClientState) (rc : RequestConfig) (transport : Nat → TransportBehaviour),
        c.retryConfig.maxRetries = N →
        (∀ i, fetchWithTimeout c rc (transport i) = Except.error (errs i)) →
        request c rc transport = ApiResponse.error (transformError (errs N)) := by
  constructor
  · intro fn hfn
    have h := retryFrom_all_retryable_fail fn errs hfn hret N 0
    simpa [retryWithBackoff] using h
  · intro c rc transport hN hfail
    have h := retryFrom_all_retryable_fail (fun i => fetchWithTimeout c rc (transport i)) errs
      hfail hret N 0
    simp only [Nat.zero_add] at h
    unfold request retryWithBackoff
    rw [hN, h]
    rfl

/-- C2 witness: `maxRetries = 2` and a constantly failing network transport
give exactly 3 invocations and the propagated last error. -/
theorem retry_exhaustion_witness :
    retryWithBackoff
        (fun _ => (Except.error (Thrown.network ("boom") none) : Except Thrown Response)) 2
      = (Except.error (Thrown.network ("boom") none), 3) :=
  (retry_exhaustion 2 (fun _ => Thrown.network ("boom") none) (fun _ => rfl)).1
    (fun _ => Except.error (Thrown.network ("boom") none)) (fun _ => rfl)

/-- C3: retryability holds exactly for network errors and HTTP errors with a
5xx status (so 4xx HTTP errors, timeouts, and foreign errors are never
retryable); consequently, for every configured `maxRetries`, a transport
resolving with a 404 response is consulted exactly once before the error
envelope is produced. -/
theorem retryable_classification_and_404 :
    (∀ t, isRetryableError t = true ↔
        ((∃ m o, t = Thrown.network m o)
          ∨ (∃ m s b, t = Thrown.http m s b ∧ 500 ≤ s ∧ s < 600)))
    ∧ ∀ (c : ClientState) (rc : RequestConfig) (resp : Response),
        c.requestInterceptors = [] → c.responseInterceptors = [] → resp.status = 404 →
        (retryWithBackoff (fun _ => fetchWithTimeout c rc (Except.ok resp))
              c.retryConfig.maxRetries).2 = 1
          ∧ ∃ e, request c rc (fun _ => Except.ok resp) = ApiResponse.error e := by
  constructor
  · intro t
    cases t with
    | network m o => simp [isRetryableError]
    | http m s b =>
        simp only [isRetryableError, isServerError, Bool.and_eq_true, decide_eq_true_eq]
        constructor
        · intro hs
          exact Or.inr ⟨m, s, b, rfl, hs.1, hs.2⟩
        · rintro (⟨m2, o2, hco⟩ | ⟨m2, s2, b2, hco, hs1, hs2⟩)
          · exact Thrown.noConfusion hco
          · cases hco
            exact ⟨hs1, hs2⟩
    | timeout m ms => simp [isRetryableError]
    | jsError e => simp [isRetryableError]
    | nonError s => simp [isRetryableError]
  · intro c rc resp hreq hresp hstatus
    have hfetch :
        fetchWithTimeout c rc (Except.ok resp)
          = Except.error
              (Thrown.http (("HTTP ") ++ toString resp.status ++ (": ") ++ resp.statusText)
                resp.status (safeParseResponseBody resp)) := by
      unfold fetchWithTimeout
      rw [hreq, hresp]
      have hok : resp.isOk = false := by
        simp [Response.isOk, hstatus]
      simp only [runRequestInterceptors, runResponseInterceptors, hok, if_false]
      simp [catchClause, errorName]
    have hnr :
        isRetryableError
            (Thrown.http (("HTTP ") ++ toString resp.status ++ (": ") ++ resp.statusText)
              resp.status (safeParseResponseBody resp)) = false := by
      simp [isRetryableError, isServerError, hstatus]
    constructor
    · unfold retryWithBackoff
      rw [retryFrom_not_retryable _ _ 0 c.retryConfig.maxRetries hfetch hnr]
    · unfold request retryWithBackoff
      rw [retryFrom_not_retryable _ _ 0 c.retryConfig.maxRetries hfetch hnr]
      exact ⟨_, rfl⟩

/-- C3 witness: a fresh default client (maxRetries 3) against a concrete 404
response makes a single transport consultation and reports an error
envelope. -/
theorem retryable_classification_and_404_witness :
    (retryWithBackoff
          (fun _ =>
            fetchWithTimeout (mkClient { baseURL := ("http://a") })
              { method := Method.GET, url := ("/x") }
              (Except.ok ⟨404, ("Not Found"), none, Except.ok JsValue.object, ("nf")⟩))
          (mkClient { baseURL := ("http://a") }).retryConfig.maxRetries).2 = 1
    ∧ ∃ e,
        request (mkClient { baseURL := ("http://a") }) { method := Method.GET, url := ("/x") }
            (fun _ => Except.ok ⟨404, ("Not Found"), none, Except.ok JsValue.object, ("nf")⟩)
          = ApiResponse.error e :=
  (retryable_classification_and_404).2 (mkClient { baseURL := ("http://a") })
    { method := Method.GET, url := ("/x") }
    ⟨404, ("Not Found"), none, Except.ok JsValue.object, ("nf")⟩ rfl rfl rfl

/-! Helper lemmas about header assembly and interceptor chaining. -/

theorem sentHeaders_getHeader_ne (c : ClientState) (mc : RequestConfig) (k : String)
    (hk : k ≠ ("Content-Type")) :
    getHeader (sentHeaders c mc) k = (getHeader mc.headers k).or (getHeader c.headers k) := by
  simp only [sentHeaders]
  split
  · rw [getHeader_setHeader, if_neg (fun hco => hk hco.symm), getHeader_spread]
  · rw [getHeader_spread]

theorem runRequestInterceptors_append (xs : List RequestInterceptor) (i : RequestInterceptor)
    (cfg : RequestConfig) :
    runRequestInterceptors (xs ++ [i]) cfg = (runRequestInterceptors xs cfg).bind i := by
  induction xs generalizing cfg with
  | nil =>
      cases h : i cfg with
      | ok c2 => simp [runRequestInterceptors, h, Except.bind]
      | error e => simp [runRequestInterceptors, h, Except.bind]
  | cons x rest ih =>
      simp only [List.cons_append, runRequestInterceptors]
      cases h : x cfg with
      | ok c2 => simpa [Except.bind] using ih c2
      | error e => simp [Except.bind]

/-- C7: with a configured (truthy) token, `injectAuthToken` places an
`Authorization: Bearer` header on the descriptor before any interceptor runs;
interceptors are chained in registration order, each receiving the previous
output; a registered interceptor that assigns its own `Authorization` value
receives the already-injected descriptor and overwrites the header; and the
header assembly preserves that value into the headers handed to the
transport, whatever the configured token was. -/
theorem auth_injection_precedence (c : ClientState) (rc cfg : RequestConfig) (tok v : String)
    (is : List RequestInterceptor) (i : RequestInterceptor) :
    (tok ≠ ("") →
        getHeader (injectAuthToken { c with authToken := tok } rc).headers ("Authorization")
          = some (("Bearer ") ++ tok))
    ∧ runRequestInterceptors (is ++ [i]) cfg = (runRequestInterceptors is cfg).bind i
    ∧ runRequestInterceptors
          [fun c2 => Except.ok { c2 with headers := setHeader c2.headers ("Authorization") v }]
          (injectAuthToken { c with authToken := tok } rc)
        = Except.ok
            { injectAuthToken { c with authToken := tok } rc with
                headers :=
                  setHeader (injectAuthToken { c with authToken := tok } rc).headers
                    ("Authorization") v }
    ∧ ∀ mc2 : RequestConfig,
        getHeader mc2.headers ("Authorization") = some v →
        getHeader (sentHeaders { c with authToken := tok } mc2) ("Authorization") = some v := by
  refine ⟨fun htok => ?_, runRequestInterceptors_append is i cfg, rfl, fun mc2 hmc2 => ?_⟩
  · unfold injectAuthToken
    rw [if_neg htok]
    rw [getHeader_spread]
    have h1 : getHeader [(("Authorization"), ("Bearer ") ++ tok)] ("Authorization")
        = some (("Bearer ") ++ tok) := by
      simp [getHeader]
    rw [h1]
    rfl
  · rw [sentHeaders_getHeader_ne _ _ _ (by decide), hmc2]
    rfl

/-- C7 witness: a concrete client with token `t` receives the injected
`Bearer t` header. -/
theorem auth_injection_precedence_witness :
    getHeader
        (injectAuthToken { mkClient { baseURL := ("http://a") } with authToken := ("t") }
          { method := Method.GET, url := ("/x") }).headers ("Authorization")
      = some (("Bearer ") ++ ("t")) :=
  (auth_injection_precedence (mkClient { baseURL := ("http://a") })
      { method := Method.GET, url := ("/x") } { method := Method.GET, url := ("/x") } ("t") ("v")
      [] (fun c2 => Except.ok c2)).1 (by decide)

/-- C8: the backoff delay equals `rand * min(initialDelay * multiplier ^ i,
maxDelay)` for the jitter draw `rand` — drawn from zero up to the capped
exponential value, not added on top of it — and for every draw in `[0, 1)`
(and nonnegative configuration values) it lies in
`[0, min(initialDelay * multiplier ^ i, maxDelay)]`. -/
theorem backoff_delay_bound (attempt : Nat) (initialDelay maxDelay backoffMultiplier rand : ℚ)
    (h0 : 0 ≤ rand) (h1 : rand < 1) (hi : 0 ≤ initialDelay) (hm : 0 ≤ maxDelay)
    (hb : 0 ≤ backoffMultiplier) :
    calculateBackoffDelay attempt initialDelay maxDelay backoffMultiplier rand
        = rand * min (initialDelay * backoffMultiplier ^ attempt) maxDelay
    ∧ 0 ≤ calculateBackoffDelay attempt initialDelay maxDelay backoffMultiplier rand
    ∧ calculateBackoffDelay attempt initialDelay maxDelay backoffMultiplier rand
        ≤ min (initialDelay * backoffMultiplier ^ attempt) maxDelay := by
  have hcap : 0 ≤ min (initialDelay * backoffMultiplier ^ attempt) maxDelay :=
    le_min (mul_nonneg hi (pow_nonneg hb _)) hm
  have heq :
      calculateBackoffDelay attempt initialDelay maxDelay backoffMultiplier rand
        = rand * min (initialDelay * backoffMultiplier ^ attempt) maxDelay := rfl
  refine ⟨heq, ?_, ?_⟩
  · rw [heq]
    exact mul_nonneg h0 hcap
  · rw [heq]
    calc rand * min (initialDelay * backoffMultiplier ^ attempt) maxDelay
        ≤ 1 * min (initialDelay * backoffMultiplier ^ attempt) maxDelay :=
          mul_le_mul_of_nonneg_right (le_of_lt h1) hcap
      _ = min (initialDelay * backoffMultiplier ^ attempt) maxDelay := one_mul _

/-- C8 witness: attempt 1 with the default retry configuration and the draw
one half gives a delay inside the required interval. -/
theorem backoff_delay_bound_witness :
    0 ≤ calculateBackoffDelay 1 1000 10000 2 (1 / 2)
    ∧ calculateBackoffDelay 1 1000 10000 2 (1 / 2) ≤ min ((1000 : ℚ) * 2 ^ 1) 10000 :=
  ⟨(backoff_delay_bound 1 1000 10000 2 (1 / 2) (by norm_num) (by norm_num) (by norm_num)
        (by norm_num) (by norm_num)).2.1,
    (backoff_delay_bound 1 1000 10000 2 (1 / 2) (by norm_num) (by norm_num) (by norm_num)
        (by norm_num) (by norm_num)).2.2⟩

/-- C9 counterexample: a present but falsy body (the number `0`) with no
content type anywhere: the body is present (`isSome`), no explicit
`Content-Type` entry exists among the merged headers, and yet the sent
headers carry no `Content-Type: application/json` entry — the claim as stated
fails at this input because the code tests JS truthiness of the body, not
presence. -/
theorem content_type_falsy_body_counterexample :
    (({ method := Method.POST, url := ("/x"), body := some (JsValue.number 0) } :
          RequestConfig).body).isSome = true
    ∧ getHeader
        (spread (mkClient { baseURL := ("http://a") }).headers
          ({ method := Method.POST, url := ("/x"), body := some (JsValue.number 0) } :
              RequestConfig).headers)
        ("Content-Type") = none
    ∧ getHeader
        (sentHeaders (mkClient { baseURL := ("http://a") })
          { method := Method.POST, url := ("/x"), body := some (JsValue.number 0) })
        ("Content-Type") = none :=
  ⟨rfl, rfl, rfl⟩

/-- C9 (amended): the headers sent are the default headers spread together
with the (post-interceptor) request headers, the request value winning on
every key collision; and whenever the body is truthy (present and not `0`,
`false`, `null` or the empty string) and no explicit `Content-Type` entry
exists among the merged headers, a `Content-Type: application/json` entry is
added; every other key is passed through unchanged by that addition. -/
theorem header_merge_content_type_amended (c : ClientState) (mc : RequestConfig) (k : String) :
    getHeader (spread c.headers mc.headers) k
        = (getHeader mc.headers k).or (getHeader c.headers k)
    ∧ (truthyOpt mc.body = true →
        getHeader (spread c.headers mc.headers) ("Content-Type") = none →
        getHeader (sentHeaders c mc) ("Content-Type") = some ("application/json"))
    ∧ (k ≠ ("Content-Type") →
        getHeader (sentHeaders c mc) k
          = (getHeader mc.headers k).or (getHeader c.headers k)) := by
  refine ⟨getHeader_spread c.headers mc.headers k, fun htr hct => ?_, fun hk => ?_⟩
  · simp only [sentHeaders]
    rw [if_pos (by rw [htr, hct]; rfl)]
    rw [getHeader_setHeader, if_pos rfl]
  · exact sentHeaders_getHeader_ne c mc k hk

/-- C9 witness: a truthy object body with no content type configured gets the
JSON content type in the sent headers. -/
theorem header_merge_content_type_amended_witness :
    getHeader
        (sentHeaders (mkClient { baseURL := ("http://a") })
          { method := Method.POST, url := ("/x"), body := some JsValue.object })
        ("Content-Type") = some ("application/json") :=
  (header_merge_content_type_amended (mkClient { baseURL := ("http://a") })
      { method := Method.POST, url := ("/x"), body := some JsValue.object } ("X")).2.1 rfl rfl

/-- C10: the empty string is the construction-time token whenever none is
supplied and the value after `setAuthToken` with the empty string (read back
by `getAuthToken`); with it, `injectAuthToken` returns the descriptor
unchanged and in particular adds no `Authorization` header. -/
theorem empty_token_no_injection (config : ApiClientConfig) (c : ClientState)
    (rc : RequestConfig) :
    (config.authToken = none → (mkClient config).authToken = (""))
    ∧ (c.authToken = ("") → injectAuthToken c rc = rc)
    ∧ (c.authToken = ("") →
        getHeader (injectAuthToken c rc).headers ("Authorization")
          = getHeader rc.headers ("Authorization"))
    ∧ (setAuthToken c ("")).authToken = ("")
    ∧ getAuthToken (setAuthToken c ("")) = ("") := by
  refine ⟨fun h => ?_, fun h => ?_, fun h => ?_, rfl, rfl⟩
  · simp [mkClient, h]
  · simp [injectAuthToken, h]
  · simp [injectAuthToken, h]

/-- C10 witness: a client built without a token has the empty token and
injects nothing into a concrete descriptor. -/
theorem empty_token_no_injection_witness :
    (mkClient { baseURL := ("http://a") }).authToken = ("")
    ∧ injectAuthToken (mkClient { baseURL := ("http://a") })
          { method := Method.GET, url := ("/x") }
        = { method := Method.GET, url := ("/x") } :=
  ⟨(empty_token_no_injection { baseURL := ("http://a") } (mkClient { baseURL := ("http://a") })
        { method := Method.GET, url := ("/x") }).1 rfl,
    (empty_token_no_injection { baseURL := ("http://a") } (mkClient { baseURL := ("http://a") })
        { method := Method.GET, url := ("/x") }).2.1 rfl⟩

end ApiModel

